import Mathlib

/-!
Verification of the SommelierLab conversational runtime.

The repository ships two runtimes:
* a WebSocket runtime (`src/server.ts`): in-memory session map, message
  validation, ping / session.start / user.message dispatch;
* an HTTP runtime (Express + Redis, in the unnamed source file):
  `/session/init`, `/chat` (history persistence, 30-entry window) and
  `/debug/session/:id` (token-gated inspection).

Both are embedded shallowly below: JSON payloads become an inductive `Json`
value, the mutable session map and the Redis store become association lists
threaded through the handlers, `Date.now()` becomes an explicit `now`
parameter, and the external n8n collaborators become explicit inputs
(`ctxResp`, `chatText`) to the handlers that call them.
-/

namespace SommelierLab

/-! ## JSON values (the decoded form of a wire payload) -/

/-- A decoded JSON value.  `safeJsonParse` in `src/server.ts` returns either a
parsed value or `null` on failure; we model its result as `Option Json`, with
`none` standing for a parse failure. -/
inductive Json where
  | null
  | bool (b : Bool)
  | num (n : Int)
  | str (s : String)
  | arr (elems : List Json)
  | obj (fields : List (String × Json))

/-- Association-list lookup by string key (models both object field access and
`Map.get` / `redis.get`). -/
def lookupKey {α : Type} : List (String × α) → String → Option α
  | [], _ => none
  | (k, v) :: rest, key => if k = key then some v else lookupKey rest key

/-- Replace the value bound to a key (models in-place mutation of an object
already stored in the `Map`). -/
def setKey {α : Type} (l : List (String × α)) (key : String) (v : α) :
    List (String × α) :=
  l.map (fun p => if p.1 = key then (key, v) else p)

/-! ## WS runtime: session state and messages (`src/server.ts`) -/

/-- The in-memory session record of the WS runtime (`SessionState` in
`src/server.ts`).  `lang` and `vino_id` are optional: they are set only by a
`session.start`.  `context` is declared in the source but never written. -/
structure SessionState where
  sessionId : String
  lang : Option String := none
  vino_id : Option String := none
  context : Option Json := none
  createdAt : Nat
  lastSeenAt : Nat

/-- Validated client-to-server messages (`ClientToServer` in the source). -/
inductive ClientToServer where
  | ping (sessionId : String)
  | sessionStart (sessionId lang vino_id : String) (context : Option Json)
  | userMessage (sessionId text : String)

/-- Server-to-client messages (`ServerToClient` in the source).  The `ts`
stamping of `send` is orthogonal to every claim and omitted. -/
inductive ServerToClient where
  | pong (sessionId : String)
  | sessionReady (sessionId : String) (text audio streaming : Bool)
  | assistantThinking (sessionId : String)
  | assistantChunk (sessionId delta : String)
  | assistantMessage (sessionId text : String)
  | errorMsg (sessionId code message : String)
  deriving DecidableEq, Repr

/-- The discriminator (`type` field) of an outbound message. -/
inductive MsgKind where
  | pong
  | sessionReady
  | thinking
  | chunk
  | message
  | err
  deriving DecidableEq, Repr

/-- Projection of an outbound message to its discriminator. -/
def ServerToClient.kind : ServerToClient → MsgKind
  | .pong _ => .pong
  | .sessionReady _ _ _ _ => .sessionReady
  | .assistantThinking _ => .thinking
  | .assistantChunk _ _ => .chunk
  | .assistantMessage _ _ => .message
  | .errorMsg _ _ _ => .err

/-- One invocation of the generation function, recorded so that theorems can
speak about what was (or was not) forwarded to the generation collaborator. -/
structure GenCall where
  lang : String
  vino_id : String
  userText : String
  deriving DecidableEq, Repr

/-- The observable outcome of handling one raw inbound WS frame: the outbound
messages in emission order, the session map afterwards, and the generation
calls made. -/
structure WsOut where
  out : List ServerToClient
  sessions : List (String × SessionState)
  genCalls : List GenCall

/-- `upsertSession` from `src/server.ts`: refresh `lastSeenAt` of an existing
record, or insert a fresh record with neither `lang` nor `vino_id`. -/
def upsertSession (sessions : List (String × SessionState)) (sid : String)
    (now : Nat) : SessionState × List (String × SessionState) :=
  match lookupKey sessions sid with
  | some s =>
      let s2 := { s with lastSeenAt := now }
      (s2, setKey sessions sid s2)
  | none =>
      let s : SessionState :=
        { sessionId := sid, createdAt := now, lastSeenAt := now }
      (s, (sid, s) :: sessions)

/-- Is the field exactly the number `1`?  (`v !== 1` in the source.) -/
def isV1 : Option Json → Bool
  | some (.num n) => n == 1
  | _ => false

/-- Extract a string-typed field (`typeof x === "string"` in the source). -/
def asString : Option Json → Option String
  | some (.str s) => some s
  | _ => none

/-- `validateClientMsg` from `src/server.ts`: requires an object with `v = 1`,
a string `type` and a string `sessionId`, then checks the type-specific
fields; any failure, and any unknown `type`, yields `none`. -/
def validateClientMsg (payload : Option Json) : Option ClientToServer :=
  match payload with
  | some (.obj fs) =>
      if isV1 (lookupKey fs "v") then
        match asString (lookupKey fs "type") with
        | none => none
        | some type =>
          match asString (lookupKey fs "sessionId") with
          | none => none
          | some sessionId =>
            if type = "ping" then some (.ping sessionId)
            else if type = "session.start" then
              match asString (lookupKey fs "lang") with
              | none => none
              | some lang =>
                match asString (lookupKey fs "vino_id") with
                | none => none
                | some vino =>
                  some (.sessionStart sessionId lang vino (lookupKey fs "context"))
            else if type = "user.message" then
              match asString (lookupKey fs "text") with
              | none => none
              | some text => some (.userMessage sessionId text)
            else none
      else none
  | _ => none

/-- The fallback session id used when a frame is rejected: the payload's
`sessionId` when it is an object with a string `sessionId`, else
`"unknown"`. -/
def fallbackSessionId (payload : Option Json) : String :=
  match payload with
  | some (.obj fs) =>
      match asString (lookupKey fs "sessionId") with
      | some s => s
      | none => "unknown"
  | _ => "unknown"

/-- `generateSommelierReply` from `src/server.ts`.  The reply depends only on
`lang` and `vino_id`; the `userText` argument is received and ignored, exactly
as in the source. -/
def generateSommelierReply (lang vino_id userText : String) : String :=
  if lang.startsWith "es" then
    "Para " ++ vino_id ++ ": marida muy bien con carnes blancas, quesos curados y platos mediterráneos."
  else
    "For " ++ vino_id ++ ": pairs well with white meats, aged cheeses, and Mediterranean dishes."

/-- The WS message handler (`wss.on connection / ws.on message` in
`src/server.ts`): decode, validate, upsert the session, dispatch.  Note that
the upsert happens before dispatch for every valid message, and that the
`user.message` readiness check is JS truthiness on `session.lang` and
`session.vino_id` (absent or empty string both fail). -/
def handleMessage (sessions : List (String × SessionState))
    (payload : Option Json) (now : Nat) : WsOut :=
  match validateClientMsg payload with
  | none =>
      ⟨[.errorMsg (fallbackSessionId payload) "INVALID_MESSAGE" "Mensaje inválido"],
       sessions, []⟩
  | some (.ping sid) =>
      let r := upsertSession sessions sid now
      ⟨[.pong sid], r.2, []⟩
  | some (.sessionStart sid lang vino _ctx) =>
      let r := upsertSession sessions sid now
      ⟨[.sessionReady sid true false true],
       setKey r.2 sid { r.1 with lang := some lang, vino_id := some vino }, []⟩
  | some (.userMessage sid text) =>
      let r := upsertSession sessions sid now
      match r.1.lang, r.1.vino_id with
      | some lang, some vino =>
          if lang = "" ∨ vino = "" then
            ⟨[.errorMsg sid "SESSION_NOT_READY" "session.start requerido"], r.2, []⟩
          else
            ⟨[.assistantThinking sid,
              .assistantChunk sid "Analizando… ",
              .assistantMessage sid (generateSommelierReply lang vino text)],
             r.2, [⟨lang, vino, text⟩]⟩
      | _, _ =>
          ⟨[.errorMsg sid "SESSION_NOT_READY" "session.start requerido"], r.2, []⟩

/-- A payload fails the codec's required-field checks: parse failure, or a
missing protocol version tag, `type`, or `sessionId`.  (Non-object payloads
have no fields, so all three are missing.) -/
def missingRequired (payload : Option Json) : Bool :=
  match payload with
  | none => true
  | some (.obj fs) =>
      (lookupKey fs "v").isNone || (asString (lookupKey fs "type")).isNone ||
        (asString (lookupKey fs "sessionId")).isNone
  | some _ => true

/-- A well-formed `ping` frame. -/
def pingPayload (sid : String) : Option Json :=
  some (.obj [("v", .num 1), ("type", .str "ping"), ("sessionId", .str sid)])

/-- A well-formed `session.start` frame. -/
def sessionStartPayload (sid lang vino : String) : Option Json :=
  some (.obj [("v", .num 1), ("type", .str "session.start"),
              ("sessionId", .str sid), ("lang", .str lang), ("vino_id", .str vino)])

/-- A well-formed `user.message` frame. -/
def userMsgPayload (sid text : String) : Option Json :=
  some (.obj [("v", .num 1), ("type", .str "user.message"),
              ("sessionId", .str sid), ("text", .str text)])

/-! ## HTTP runtime: Express + Redis (the unnamed source file) -/

/-- Turn roles. -/
inductive Role where
  | user
  | assistant
  deriving DecidableEq, Repr

/-- One history entry (`HistoryItem` in the source). -/
structure HistoryItem where
  role : Role
  text : String
  ts : Nat
  deriving DecidableEq, Repr

/-- Tenant block of the agent context. -/
structure Tenant where
  tenant_id : String
  bodega : Option String := none
  estilo : Option String := none
  voice_id : Option String := none

/-- `AgentContext` from the source; `wine` is typed `any` there, so it is an
opaque JSON blob here. -/
structure AgentContext where
  language : String
  tenant : Tenant
  wine : Json

/-- A stored session record of the HTTP runtime (`SessionState` there; renamed
to avoid clashing with the WS record). -/
structure HttpSessionState where
  agent_context : AgentContext
  history : List HistoryItem
  created_at : Nat
  updated_at : Nat

/-- The Redis store, modelled as an association list where `redis.set`
prepends a fresh binding (last writer wins on lookup). -/
abbrev Store := List (String × HttpSessionState)

/-- `sessionKey` from the source. -/
def sessionKey (id : String) : String := "sommelier:session:" ++ id

/-- JavaScript `String.prototype.trim`: strip whitespace from both ends.
(Defined over the character list so that it reduces in the kernel; Lean's
own `String.trim` is equivalent but not kernel-reducible.) -/
def jsTrim (s : String) : String :=
  ⟨((s.data.dropWhile Char.isWhitespace).reverse.dropWhile Char.isWhitespace).reverse⟩

/-- `assertString` from the source: absent, non-string, or
whitespace-only-after-trim values throw `"<name> missing"`; otherwise the
trimmed string is returned. -/
def assertString (name : String) (v : Option String) : Except String String :=
  match v with
  | none => .error (name ++ " missing")
  | some s => if jsTrim s = "" then .error (name ++ " missing") else .ok (jsTrim s)

/-- JavaScript `arr.slice(-n)` for `n > 0`: the suffix of the most recent
(at most) `n` elements. -/
def sliceLast {α : Type} (n : Nat) (l : List α) : List α :=
  l.drop (l.length - n)

/-- Result of `/session/init`: 200 payload or 400 error body. -/
inductive InitResult where
  | ok (session_id language : String)
  | badRequest (error : String)
  deriving DecidableEq, Repr

/-- The `/session/init` handler.  `ctxResp` is the n8n context collaborator's
`agent_context` (or `none` when the call failed / the field was missing).  On
success a fresh record with empty history is written under the session key,
regardless of any record already stored. -/
def sessionInitHandler (store : Store) (sid? vino? anyada? : Option String)
    (ctxResp : Option AgentContext) (now : Nat) : InitResult × Store :=
  match assertString "session_id" sid? with
  | .error e => (.badRequest e, store)
  | .ok session_id =>
    match assertString "vino_id" vino? with
    | .error e => (.badRequest e, store)
    | .ok _vino =>
      match assertString "anyada" anyada? with
      | .error e => (.badRequest e, store)
      | .ok _anyada =>
        match ctxResp with
        | none => (.badRequest "n8n context missing agent_context", store)
        | some ac =>
            let st : HttpSessionState :=
              { agent_context := ac, history := [], created_at := now,
                updated_at := now }
            (.ok session_id ac.language, (sessionKey session_id, st) :: store)

/-- Result of `/chat`: 200 payload, 404, or 400 error body. -/
inductive ChatResult where
  | ok (session_id text : String) (history_len : Nat)
  | notFound
  | badRequest (error : String)
  deriving DecidableEq, Repr

/-- The observable outcome of one `/chat` request: the HTTP result, the store
afterwards, and whether the n8n chat collaborator was invoked. -/
structure ChatOutcome where
  result : ChatResult
  store : Store
  calledChat : Bool

/-- The `/chat` handler.  `chatText` is the `text` field of the n8n chat
collaborator's response (`none` for a missing field; the source treats the
empty string the same way via JS falsiness).  The collaborator is invoked
only after validation and the store read; on a missing/empty result the
handler throws before `redis.set`, so the store is left untouched. -/
def chatHandler (store : Store) (sid? userText? : Option String)
    (chatText : Option String) (now : Nat) : ChatOutcome :=
  match assertString "session_id" sid? with
  | .error e => ⟨.badRequest e, store, false⟩
  | .ok session_id =>
    match assertString "userText" userText? with
    | .error e => ⟨.badRequest e, store, false⟩
    | .ok userText =>
      match lookupKey store (sessionKey session_id) with
      | none => ⟨.notFound, store, false⟩
      | some state =>
          let history := state.history ++ [⟨.user, userText, now⟩]
          match chatText with
          | none => ⟨.badRequest "n8n chat missing text", store, true⟩
          | some t =>
            if t = "" then ⟨.badRequest "n8n chat missing text", store, true⟩
            else
              let assistantText := jsTrim t
              let nextState : HttpSessionState :=
                { state with
                  history := sliceLast 30 (history ++ [⟨.assistant, assistantText, now⟩]),
                  updated_at := now }
              ⟨.ok session_id assistantText nextState.history.length,
               (sessionKey session_id, nextState) :: store, true⟩

/-- Response of `/debug/session/:id`. -/
inductive DebugResponse where
  | forbidden
  | ok (present : Bool) (ttl_seconds : Int) (state : Option HttpSessionState)

/-- The `/debug/session/:id` handler.  The gate fires only when the
configured `DEBUG_TOKEN` is truthy (nonempty) and the supplied token
differs; with an empty configured token the gate is skipped entirely.
`ttl` is `redis.ttl`'s answer, an external input. -/
def debugSessionHandler (debugToken : String) (store : Store)
    (token id : String) (ttl : Int) : DebugResponse :=
  if debugToken ≠ "" ∧ token ≠ debugToken then .forbidden
  else
    let raw := lookupKey store (sessionKey id)
    .ok raw.isSome ttl raw

/-! ## Iterated turns (for the history-bounding claim) -/

/-- One successful `/chat` turn against session `"s1"` with user text `"u"`,
assistant text `"a"`, at time `k`. -/
def turnStore (store : Store) (k : Nat) : Store :=
  (chatHandler store (some "s1") (some "u") (some "a") k).store

/-- `n` successive successful turns starting at time `k`. -/
def runTurns : Nat → Store → Nat → Store
  | 0, store, _ => store
  | n + 1, store, k => runTurns n (turnStore store k) (k + 1)

/-- The full (untrimmed) log of entries appended by `runTurns n _ k`. -/
def fullLog : Nat → Nat → List HistoryItem
  | 0, _ => []
  | n + 1, k => ⟨.user, "u", k⟩ :: ⟨.assistant, "a", k⟩ :: fullLog n (k + 1)

/-- The history stored for session `"s1"`, when present. -/
def storedHistory (store : Store) : Option (List HistoryItem) :=
  (lookupKey store (sessionKey "s1")).map (fun s => s.history)

/-! ## Concrete fixtures used by witnesses and counterexamples -/

def demoContext : AgentContext :=
  { language := "es", tenant := { tenant_id := "t1" }, wine := .null }

def demoStateWithHistory : HttpSessionState :=
  { agent_context := demoContext, history := [⟨.user, "hola", 1⟩],
    created_at := 0, updated_at := 1 }

def demoStateEmpty : HttpSessionState :=
  { agent_context := demoContext, history := [], created_at := 0, updated_at := 0 }

def readySession : SessionState :=
  { sessionId := "s1", lang := some "es", vino_id := some "w42",
    createdAt := 0, lastSeenAt := 0 }

def initialStore : Store := [(sessionKey "s1", demoStateEmpty)]

theorem length_sliceLast {α : Type} (n : Nat) (l : List α) :
    (sliceLast n l).length ≤ n := by
  simp [sliceLast]
  omega

theorem sliceLast_suffix {α : Type} (n : Nat) (l : List α) :
    sliceLast n l <:+ l := List.drop_suffix _ _

theorem sliceLast_of_le {α : Type} {n : Nat} {l : List α} (h : l.length ≤ n) :
    sliceLast n l = l := by
  simp [sliceLast, Nat.sub_eq_zero_of_le h]

theorem sliceLast_append_sliceLast {α : Type} (n : Nat) (xs ys : List α) :
    sliceLast n (sliceLast n xs ++ ys) = sliceLast n (xs ++ ys) := by
  rcases Nat.le_total xs.length n with h | h
  · rw [sliceLast_of_le h]
  · have hd : xs.length - n ≤ xs.length := Nat.sub_le _ _
    unfold sliceLast
    simp only [List.length_append, List.length_drop]
    have h1 : xs.length - (xs.length - n) + ys.length - n = ys.length := by omega
    have h2 : xs.length + ys.length - n = (xs.length - n) + ys.length := by omega
    rw [h1, h2, ← List.drop_drop, List.drop_append_of_le_length hd]

theorem validate_userMsgPayload (sid text : String) :
    validateClientMsg (userMsgPayload sid text) = some (.userMessage sid text) := rfl

theorem validate_pingPayload (sid : String) :
    validateClientMsg (pingPayload sid) = some (.ping sid) := rfl

theorem validate_sessionStartPayload (sid lang vino : String) :
    validateClientMsg (sessionStartPayload sid lang vino) =
      some (.sessionStart sid lang vino none) := rfl

theorem validate_none_of_missing (payload : Option Json)
    (h : missingRequired payload = true) : validateClientMsg payload = none := by
  match payload with
  | none => rfl
  | some .null => rfl
  | some (.bool b) => rfl
  | some (.num n) => rfl
  | some (.str s) => rfl
  | some (.arr es) => rfl
  | some (.obj fs) =>
    simp only [missingRequired, Bool.or_eq_true, Option.isNone_iff_eq_none] at h
    rcases h with (h | h) | h
    · simp [validateClientMsg, h, isV1]
    · cases hv : isV1 (lookupKey fs "v")
      · simp [validateClientMsg, hv]
      · simp [validateClientMsg, hv, h]
    · cases hv : isV1 (lookupKey fs "v")
      · simp [validateClientMsg, hv]
      · cases ht : asString (lookupKey fs "type")
        · simp [validateClientMsg, hv, ht]
        · simp [validateClientMsg, hv, ht, h]

/-- Claim C6 (confirmed): for every inbound payload that is not valid JSON, or
that lacks the protocol version tag, the `type` discriminator, or `sessionId`,
validation yields the decode-failure result and the dispatcher emits exactly
one `error` message with code `INVALID_MESSAGE` (keyed by the fallback session
id), leaves the session map unchanged, and makes no generation call.  The
handler is a total function, so no exception escapes the codec boundary. -/
theorem C6_invalid_single_error (sessions : List (String × SessionState))
    (payload : Option Json) (now : Nat) (h : missingRequired payload = true) :
    handleMessage sessions payload now =
      ⟨[.errorMsg (fallbackSessionId payload) "INVALID_MESSAGE" "Mensaje inválido"],
       sessions, []⟩ := by
  unfold handleMessage
  rw [validate_none_of_missing payload h]

theorem C6_invalid_single_error_witness :
    missingRequired (some (.obj [("sessionId", .str "s1")])) = true ∧
    handleMessage [] (some (.obj [("sessionId", .str "s1")])) 7 =
      ⟨[.errorMsg "s1" "INVALID_MESSAGE" "Mensaje inválido"], [], []⟩ :=
  ⟨rfl, C6_invalid_single_error [] (some (.obj [("sessionId", .str "s1")])) 7 rfl⟩

/-- Claim C1 (corrected): handling a `user.message` for a session id with no
record does emit exactly one `error` with code `SESSION_NOT_READY`, makes no
generation call and binds no `lang`/`vino_id` — but, contrary to the claim, a
bare session record for that id is created by the `upsertSession` that runs
before dispatch. -/
theorem C1_uninitialized_user_message (sessions : List (String × SessionState))
    (sid text : String) (now : Nat) (h : lookupKey sessions sid = none) :
    handleMessage sessions (userMsgPayload sid text) now =
      ⟨[.errorMsg sid "SESSION_NOT_READY" "session.start requerido"],
       (sid, { sessionId := sid, createdAt := now, lastSeenAt := now }) :: sessions,
       []⟩ := by
  unfold handleMessage
  rw [validate_userMsgPayload]
  simp [upsertSession, h]

theorem C1_uninitialized_user_message_witness :
    lookupKey ([] : List (String × SessionState)) "s1" = none ∧
    handleMessage [] (userMsgPayload "s1" "hola") 5 =
      ⟨[.errorMsg "s1" "SESSION_NOT_READY" "session.start requerido"],
       [("s1", { sessionId := "s1", createdAt := 5, lastSeenAt := 5 })], []⟩ :=
  ⟨rfl, C1_uninitialized_user_message [] "s1" "hola" 5 rfl⟩

theorem C1_uninitialized_user_message_cex :
    (handleMessage [] (userMsgPayload "s1" "hola") 5).out =
      [.errorMsg "s1" "SESSION_NOT_READY" "session.start requerido"] ∧
    (handleMessage [] (userMsgPayload "s1" "hola") 5).sessions.map Prod.fst = ["s1"] ∧
    ["s1"] ≠ ([] : List String) := by
  refine ⟨rfl, rfl, by decide⟩

/-- Claim C8 (corrected): a `ping` is legal in any state and is always
answered with exactly one `pong`; for an existing session only `lastSeenAt`
is mutated — but, contrary to the claim, for a previously-unseen session id
the pre-dispatch upsert creates a new bare session record. -/
theorem C8_ping_behavior :
    (∀ (sessions : List (String × SessionState)) (sid : String) (now : Nat)
       (s : SessionState), lookupKey sessions sid = some s →
      handleMessage sessions (pingPayload sid) now =
        ⟨[.pong sid], setKey sessions sid { s with lastSeenAt := now }, []⟩) ∧
    (∀ (sessions : List (String × SessionState)) (sid : String) (now : Nat),
      lookupKey sessions sid = none →
      handleMessage sessions (pingPayload sid) now =
        ⟨[.pong sid],
         (sid, { sessionId := sid, createdAt := now, lastSeenAt := now }) :: sessions,
         []⟩) := by
  constructor
  · intro sessions sid now s h
    unfold handleMessage
    rw [validate_pingPayload]
    simp [upsertSession, h]
  · intro sessions sid now h
    unfold handleMessage
    rw [validate_pingPayload]
    simp [upsertSession, h]

theorem C8_ping_behavior_witness :
    lookupKey ([] : List (String × SessionState)) "s1" = none ∧
    handleMessage [] (pingPayload "s1") 5 =
      ⟨[.pong "s1"],
       [("s1", { sessionId := "s1", createdAt := 5, lastSeenAt := 5 })], []⟩ :=
  ⟨rfl, C8_ping_behavior.2 [] "s1" 5 rfl⟩

theorem C8_ping_behavior_cex :
    (handleMessage [] (pingPayload "s1") 5).out = [.pong "s1"] ∧
    (handleMessage [] (pingPayload "s1") 5).sessions.map Prod.fst = ["s1"] ∧
    ["s1"] ≠ ([] : List String) :=
  ⟨rfl, rfl, by decide⟩

theorem setKey_setKey {α : Type} (l : List (String × α)) (k : String) (v w : α) :
    setKey (setKey l k v) k w = setKey l k w := by
  unfold setKey
  rw [List.map_map]
  congr 1
  funext p
  by_cases hp : p.1 = k <;> simp [Function.comp, hp]

theorem handleMessage_ready_user (sessions : List (String × SessionState))
    (sid text : String) (s : SessionState) (lang vino : String) (now : Nat)
    (h : lookupKey sessions sid = some s)
    (hl : s.lang = some lang) (hv : s.vino_id = some vino)
    (hl2 : lang ≠ "") (hv2 : vino ≠ "") :
    handleMessage sessions (userMsgPayload sid text) now =
      ⟨[.assistantThinking sid, .assistantChunk sid "Analizando… ",
        .assistantMessage sid (generateSommelierReply lang vino text)],
       setKey sessions sid { s with lastSeenAt := now },
       [⟨lang, vino, text⟩]⟩ := by
  unfold handleMessage
  rw [validate_userMsgPayload]
  simp [upsertSession, h, hl, hv, hl2, hv2]

/-- Claim C3 (corrected): a repeated `session.start` on the WS runtime
overwrites `lang` and `vino_id` with the new values, refreshes `lastSeenAt`,
and preserves every other field of the existing record (the WS record holds
no history, so nothing is cleared and the bound phase does not regress) — but
the HTTP runtime's `/session/init` on an existing session writes a fresh
record whose `history` is empty, clearing any prior history, contrary to the
claim's "does not clear the existing history". -/
theorem C3_restart_rebind :
    (∀ (sessions : List (String × SessionState)) (sid : String) (s : SessionState)
       (lang vino : String) (now : Nat), lookupKey sessions sid = some s →
      handleMessage sessions (sessionStartPayload sid lang vino) now =
        ⟨[.sessionReady sid true false true],
         setKey sessions sid
           { s with lastSeenAt := now, lang := some lang, vino_id := some vino },
         []⟩) ∧
    (∀ (store : Store) (sid vino anyada : String) (ac : AgentContext) (now : Nat),
      jsTrim sid ≠ "" → jsTrim vino ≠ "" → jsTrim anyada ≠ "" →
      sessionInitHandler store (some sid) (some vino) (some anyada) (some ac) now =
        (.ok (jsTrim sid) ac.language,
         (sessionKey (jsTrim sid),
          { agent_context := ac, history := [], created_at := now,
            updated_at := now }) :: store)) := by
  constructor
  · intro sessions sid s lang vino now h
    unfold handleMessage
    rw [validate_sessionStartPayload]
    simp [upsertSession, h, setKey_setKey]
  · intro store sid vino anyada ac now h1 h2 h3
    simp [sessionInitHandler, assertString, h1, h2, h3]




theorem C3_restart_rebind_witness :
    lookupKey [("s1",
        ({ sessionId := "s1", lang := some "en", vino_id := some "w1",
           createdAt := 0, lastSeenAt := 0 } : SessionState))] "s1" =
      some { sessionId := "s1", lang := some "en", vino_id := some "w1",
             createdAt := 0, lastSeenAt := 0 } ∧
    handleMessage [("s1",
        ({ sessionId := "s1", lang := some "en", vino_id := some "w1",
           createdAt := 0, lastSeenAt := 0 } : SessionState))]
      (sessionStartPayload "s1" "es" "w2") 9 =
      ⟨[.sessionReady "s1" true false true],
       [("s1",
         ({ sessionId := "s1", lang := some "es", vino_id := some "w2",
            createdAt := 0, lastSeenAt := 9 } : SessionState))], []⟩ := by
  refine ⟨rfl, ?_⟩
  have h := C3_restart_rebind.1
    [("s1",
      ({ sessionId := "s1", lang := some "en", vino_id := some "w1",
         createdAt := 0, lastSeenAt := 0 } : SessionState))] "s1"
    { sessionId := "s1", lang := some "en", vino_id := some "w1",
      createdAt := 0, lastSeenAt := 0 } "es" "w2" 9 rfl
  exact h

theorem C3_restart_rebind_cex :
    (lookupKey ([(sessionKey "s1", demoStateWithHistory)] : Store)
        (sessionKey "s1")).map (fun s => s.history) = some [⟨.user, "hola", 1⟩] ∧
    (lookupKey (sessionInitHandler [(sessionKey "s1", demoStateWithHistory)]
        (some "s1") (some "w42") (some "2019") (some demoContext) 2).2
        (sessionKey "s1")).map (fun s => s.history) = some [] ∧
    some ([] : List HistoryItem) ≠ some [⟨.user, "hola", 1⟩] := by
  refine ⟨rfl, rfl, by decide⟩

/-- Claim C5 (corrected): a single accepted `user.message` on a session with
bound `lang`/`vino_id` produces the outbound sequence `[assistant.thinking,
assistant.chunk, assistant.message]` — thinking first and the final message
last, but with an `assistant.chunk` in between that the claim omits; and in
the HTTP runtime a successful turn on a session with empty history persists
exactly 2 entries, a user turn followed by an assistant turn. -/
theorem C5_turn_sequence :
    (∀ (sessions : List (String × SessionState)) (sid text : String)
       (s : SessionState) (lang vino : String) (now : Nat),
      lookupKey sessions sid = some s → s.lang = some lang →
      s.vino_id = some vino → lang ≠ "" → vino ≠ "" →
      (handleMessage sessions (userMsgPayload sid text) now).out =
        [.assistantThinking sid, .assistantChunk sid "Analizando… ",
         .assistantMessage sid (generateSommelierReply lang vino text)]) ∧
    (∀ (store : Store) (sid ut t : String) (state : HttpSessionState) (now : Nat),
      jsTrim sid ≠ "" → jsTrim ut ≠ "" → t ≠ "" →
      lookupKey store (sessionKey (jsTrim sid)) = some state → state.history = [] →
      chatHandler store (some sid) (some ut) (some t) now =
        ⟨.ok (jsTrim sid) (jsTrim t) 2,
         (sessionKey (jsTrim sid),
          { state with
            history := [⟨.user, jsTrim ut, now⟩, ⟨.assistant, jsTrim t, now⟩],
            updated_at := now }) :: store, true⟩) := by
  constructor
  · intro sessions sid text s lang vino now h hl hv hl2 hv2
    rw [handleMessage_ready_user sessions sid text s lang vino now h hl hv hl2 hv2]
  · intro store sid ut t state now h1 h2 h3 h4 h5
    simp [chatHandler, assertString, h1, h2, h3, h4, h5, sliceLast]


theorem C5_turn_sequence_witness :
    lookupKey [("s1", readySession)] "s1" = some readySession ∧
    (handleMessage [("s1", readySession)] (userMsgPayload "s1" "hola") 5).out =
      [.assistantThinking "s1", .assistantChunk "s1" "Analizando… ",
       .assistantMessage "s1" (generateSommelierReply "es" "w42" "hola")] :=
  ⟨rfl, C5_turn_sequence.1 [("s1", readySession)] "s1" "hola" readySession
    "es" "w42" 5 rfl rfl rfl (by decide) (by decide)⟩

theorem C5_turn_sequence_cex :
    ((handleMessage [("s1", readySession)] (userMsgPayload "s1" "hola") 5).out.map
        ServerToClient.kind) = [.thinking, .chunk, .message] ∧
    [MsgKind.thinking, MsgKind.chunk, MsgKind.message] ≠
      [MsgKind.thinking, MsgKind.message] :=
  ⟨rfl, by decide⟩

/-- Claim C7 (corrected): in the HTTP runtime, a turn whose `userText` is
empty or whitespace-only after trimming is rejected with a 400
`"userText missing"` error (not `INVALID_MESSAGE`) before the generation
collaborator is invoked; but the WS runtime performs no such validation and
forwards even an empty text to the generation function, emitting the normal
thinking/chunk/message sequence instead of an error. -/
theorem C7_empty_text :
    (∀ (store : Store) (sid w : String) (ct : Option String) (now : Nat),
      jsTrim sid ≠ "" → jsTrim w = "" →
      chatHandler store (some sid) (some w) ct now =
        ⟨.badRequest "userText missing", store, false⟩) ∧
    (∀ (sessions : List (String × SessionState)) (sid : String) (s : SessionState)
       (lang vino : String) (now : Nat),
      lookupKey sessions sid = some s → s.lang = some lang →
      s.vino_id = some vino → lang ≠ "" → vino ≠ "" →
      (handleMessage sessions (userMsgPayload sid "") now).genCalls =
        [⟨lang, vino, ""⟩] ∧
      (handleMessage sessions (userMsgPayload sid "") now).out.map
        ServerToClient.kind = [.thinking, .chunk, .message]) := by
  constructor
  · intro store sid w ct now h1 h2
    simp [chatHandler, assertString, h1, h2]
  · intro sessions sid s lang vino now h hl hv hl2 hv2
    rw [handleMessage_ready_user sessions sid "" s lang vino now h hl hv hl2 hv2]
    exact ⟨rfl, rfl⟩

theorem C7_empty_text_witness :
    jsTrim "s1" ≠ "" ∧ jsTrim "  " = "" ∧
    chatHandler [(sessionKey "s1", demoStateEmpty)] (some "s1") (some "  ") none 3 =
      ⟨.badRequest "userText missing", [(sessionKey "s1", demoStateEmpty)], false⟩ :=
  ⟨by decide, by decide,
   C7_empty_text.1 [(sessionKey "s1", demoStateEmpty)] "s1" "  " none 3
     (by decide) (by decide)⟩

theorem C7_empty_text_cex :
    (handleMessage [("s1", readySession)] (userMsgPayload "s1" "") 5).genCalls =
      [⟨"es", "w42", ""⟩] ∧
    ([⟨"es", "w42", ""⟩] : List GenCall) ≠ [] ∧
    (handleMessage [("s1", readySession)] (userMsgPayload "s1" "") 5).out.map
      ServerToClient.kind = [.thinking, .chunk, .message] :=
  ⟨rfl, by decide, rfl⟩

/-- Claim C10 (confirmed): the assistant reply of the WS runtime is a
function of the session's `lang` and `vino_id` only — `generateSommelierReply`
ignores its `userText` argument, and two `user.message` frames that differ
only in their text produce identical outbound message lists. -/
theorem C10_reply_ignores_text :
    (∀ lang vino t1 t2 : String,
      generateSommelierReply lang vino t1 = generateSommelierReply lang vino t2) ∧
    (∀ (sessions : List (String × SessionState)) (sid t1 t2 : String) (now : Nat),
      (handleMessage sessions (userMsgPayload sid t1) now).out =
        (handleMessage sessions (userMsgPayload sid t2) now).out) := by
  refine ⟨fun _ _ _ _ => rfl, fun sessions sid t1 t2 now => ?_⟩
  unfold handleMessage
  rw [validate_userMsgPayload, validate_userMsgPayload]
  rcases h : (upsertSession sessions sid now).1.lang with _ | lang <;>
    rcases h2 : (upsertSession sessions sid now).1.vino_id with _ | vino <;>
    simp only [h, h2] <;> try rfl
  split <;> rfl

/-- Claim C2 (corrected): when the generation collaborator's reply text is
missing or empty on an accepted user turn, the `/chat` handler throws before
`redis.set`, so — contrary to the claim — nothing is persisted: the stored
session (including its history, and in particular the user's turn) is
unchanged, no assistant turn is appended, and the client receives the 400
error body `"n8n chat missing text"` rather than
`protocol.error(UPSTREAM_ERROR)`. -/
theorem C2_upstream_missing_text (store : Store) (sid ut : String)
    (ct : Option String) (state : HttpSessionState) (now : Nat)
    (hsid : jsTrim sid ≠ "") (hut : jsTrim ut ≠ "")
    (hstate : lookupKey store (sessionKey (jsTrim sid)) = some state)
    (hct : ct = none ∨ ct = some "") :
    chatHandler store (some sid) (some ut) ct now =
      ⟨.badRequest "n8n chat missing text", store, true⟩ := by
  rcases hct with h | h <;> subst h <;>
    simp [chatHandler, assertString, hsid, hut, hstate]

theorem C2_upstream_missing_text_witness :
    jsTrim "s1" ≠ "" ∧ jsTrim "hola" ≠ "" ∧
    lookupKey ([(sessionKey "s1", demoStateEmpty)] : Store)
      (sessionKey (jsTrim "s1")) = some demoStateEmpty ∧
    chatHandler [(sessionKey "s1", demoStateEmpty)] (some "s1") (some "hola") none 9 =
      ⟨.badRequest "n8n chat missing text", [(sessionKey "s1", demoStateEmpty)], true⟩ :=
  ⟨by decide, by decide, rfl,
   C2_upstream_missing_text [(sessionKey "s1", demoStateEmpty)] "s1" "hola" none
     demoStateEmpty 9 (by decide) (by decide) rfl (Or.inl rfl)⟩

theorem C2_upstream_missing_text_cex :
    (lookupKey (chatHandler [(sessionKey "s1", demoStateEmpty)] (some "s1")
        (some "hola") none 9).store (sessionKey "s1")).map (fun s => s.history) =
      some [] ∧
    (chatHandler [(sessionKey "s1", demoStateEmpty)] (some "s1") (some "hola")
        none 9).result = .badRequest "n8n chat missing text" ∧
    some ([] : List HistoryItem) ≠ some [(⟨.user, "hola", 9⟩ : HistoryItem)] :=
  ⟨rfl, rfl, by decide⟩

/-- Claim C9 (corrected): when a nonempty `DEBUG_TOKEN` is configured, every
request to `/debug/session/:id` whose token differs from it is refused with
403 forbidden, and neither the session's serialized state nor its remaining
TTL is returned; the counterexample shows that with an empty (unset)
`DEBUG_TOKEN` the gate is skipped and the state and TTL are served even
though the supplied token does not equal the configured secret. -/
theorem C9_debug_gate (debugToken : String) (store : Store) (token id : String)
    (ttl : Int) (hne : debugToken ≠ "") (hdiff : token ≠ debugToken) :
    debugSessionHandler debugToken store token id ttl = .forbidden := by
  simp [debugSessionHandler, hne, hdiff]

theorem C9_debug_gate_witness :
    ("secreto" : String) ≠ "" ∧ ("wrong" : String) ≠ "secreto" ∧
    debugSessionHandler "secreto" [(sessionKey "s1", demoStateEmpty)] "wrong" "s1" 42 =
      .forbidden :=
  ⟨by decide, by decide,
   C9_debug_gate "secreto" [(sessionKey "s1", demoStateEmpty)] "wrong" "s1" 42
     (by decide) (by decide)⟩

theorem C9_debug_gate_cex :
    ("wrong" : String) ≠ "" ∧
    debugSessionHandler "" [(sessionKey "s1", demoStateEmpty)] "wrong" "s1" 42 =
      .ok true 42 (some demoStateEmpty) :=
  ⟨by decide, rfl⟩

theorem chatHandler_success (store : Store) (sid ut t : String)
    (state : HttpSessionState) (now : Nat)
    (hsid : jsTrim sid ≠ "") (hut : jsTrim ut ≠ "") (ht : t ≠ "")
    (hstate : lookupKey store (sessionKey (jsTrim sid)) = some state) :
    chatHandler store (some sid) (some ut) (some t) now =
      ⟨.ok (jsTrim sid) (jsTrim t)
         (sliceLast 30 (state.history ++
            [⟨.user, jsTrim ut, now⟩, ⟨.assistant, jsTrim t, now⟩])).length,
       (sessionKey (jsTrim sid),
        { state with
          history := sliceLast 30 (state.history ++
            [⟨.user, jsTrim ut, now⟩, ⟨.assistant, jsTrim t, now⟩]),
          updated_at := now }) :: store, true⟩ := by
  simp [chatHandler, assertString, hsid, hut, ht, hstate]

theorem length_fullLog (n : Nat) : ∀ k, (fullLog n k).length = 2 * n := by
  induction n with
  | zero => intro k; rfl
  | succ n ih =>
      intro k
      simp [fullLog, ih]
      omega

theorem storedHistory_cons (st : HttpSessionState) (store : Store) :
    storedHistory ((sessionKey "s1", st) :: store) = some st.history := by
  simp [storedHistory, lookupKey]

theorem turnStore_step (store : Store) (state : HttpSessionState) (k : Nat)
    (h : lookupKey store (sessionKey "s1") = some state) :
    turnStore store k =
      (sessionKey "s1",
       { state with
         history := sliceLast 30 (state.history ++
           [⟨.user, "u", k⟩, ⟨.assistant, "a", k⟩]),
         updated_at := k }) :: store := by
  have e := chatHandler_success store "s1" "u" "a" state k (by decide) (by decide)
    (by decide) h
  unfold turnStore
  rw [e]
  rfl

theorem runTurns_storedHistory (n : Nat) :
    ∀ (store : Store) (h : List HistoryItem) (k : Nat),
      storedHistory store = some h → h.length ≤ 30 →
      storedHistory (runTurns n store k) = some (sliceLast 30 (h ++ fullLog n k)) := by
  induction n with
  | zero =>
      intro store h k hh hlen
      simpa [runTurns, fullLog, sliceLast_of_le hlen] using hh
  | succ n ih =>
      intro store h k hh hlen
      obtain ⟨state, hst, hhist⟩ :
          ∃ state, lookupKey store (sessionKey "s1") = some state ∧
            state.history = h := by
        unfold storedHistory at hh
        rcases hx : lookupKey store (sessionKey "s1") with _ | st
        · rw [hx] at hh
          simp at hh
        · rw [hx] at hh
          simp at hh
          exact ⟨st, rfl, hh⟩
      have step := turnStore_step store state k hst
      have hnext : storedHistory (turnStore store k) =
          some (sliceLast 30 (h ++ [⟨.user, "u", k⟩, ⟨.assistant, "a", k⟩])) := by
        rw [step, storedHistory_cons]
        simp [hhist]
      have hlen2 : (sliceLast 30 (h ++ [⟨.user, "u", k⟩, ⟨.assistant, "a", k⟩])).length ≤ 30 :=
        length_sliceLast _ _
      have hrec := ih (turnStore store k) _ (k + 1) hnext hlen2
      rw [runTurns, hrec, sliceLast_append_sliceLast]
      congr 1
      simp [fullLog]


/-- Claim C4 (confirmed): every successful `/chat` turn persists a history of
at most 30 entries that is a suffix of the old history extended by the new
user and assistant turns (the trim removes only from the head); and after 31
successive successful turns starting from an empty history, the stored
history is exactly the most recent 30 entries of the full 62-entry log. -/
theorem C4_history_bounded :
    (∀ (store : Store) (sid ut t : String) (state : HttpSessionState) (now : Nat),
      jsTrim sid ≠ "" → jsTrim ut ≠ "" → t ≠ "" →
      lookupKey store (sessionKey (jsTrim sid)) = some state →
      ∃ nextH : List HistoryItem,
        chatHandler store (some sid) (some ut) (some t) now =
          ⟨.ok (jsTrim sid) (jsTrim t) nextH.length,
           (sessionKey (jsTrim sid),
            { state with history := nextH, updated_at := now }) :: store, true⟩ ∧
        nextH.length ≤ 30 ∧
        nextH <:+ state.history ++
          [⟨.user, jsTrim ut, now⟩, ⟨.assistant, jsTrim t, now⟩]) ∧
    storedHistory (runTurns 31 initialStore 0) =
      some (sliceLast 30 (fullLog 31 0)) ∧
    (sliceLast 30 (fullLog 31 0)).length = 30 := by
  refine ⟨?_, ?_, ?_⟩
  · intro store sid ut t state now h1 h2 h3 h4
    exact ⟨_, chatHandler_success store sid ut t state now h1 h2 h3 h4,
           length_sliceLast _ _, sliceLast_suffix _ _⟩
  · have h0 : storedHistory initialStore = some [] := rfl
    have hr := runTurns_storedHistory 31 initialStore [] 0 h0 (by simp)
    simpa using hr
  · have hl : (fullLog 31 0).length = 62 := by rw [length_fullLog]
    simp [sliceLast, hl]

theorem C4_history_bounded_witness :
    jsTrim "s1" ≠ "" ∧ jsTrim "hola" ≠ "" ∧ ("resp" : String) ≠ "" ∧
    lookupKey initialStore (sessionKey (jsTrim "s1")) = some demoStateEmpty ∧
    ∃ nextH : List HistoryItem,
      chatHandler initialStore (some "s1") (some "hola") (some "resp") 3 =
        ⟨.ok (jsTrim "s1") (jsTrim "resp") nextH.length,
         (sessionKey (jsTrim "s1"),
          { demoStateEmpty with history := nextH, updated_at := 3 }) ::
           initialStore, true⟩ ∧
      nextH.length ≤ 30 ∧
      nextH <:+ demoStateEmpty.history ++
        [⟨.user, jsTrim "hola", 3⟩, ⟨.assistant, jsTrim "resp", 3⟩] :=
  ⟨by decide, by decide, by decide, rfl,
   C4_history_bounded.1 initialStore "s1" "hola" "resp" demoStateEmpty 3
     (by decide) (by decide) (by decide) rfl⟩

end SommelierLab
